import Mathlib

/-!
Verification development for the chat_project repository.

The hub (src/chat/consumers.py) parses inbound JSON envelopes, routes them
to channel-layer groups, and per-kind handler methods translate internal
broadcast messages into outbound wire envelopes.  The authentication
middleware (src/chat/middleware.py) resolves a JWT token to a user or an
anonymous user.  The persistence layer (src/chat/models.py, schema.py)
stores message content as base64.

We embed the Python code shallowly: JSON/Python values become the
inductive `PyVal`; dictionary accesses that can raise (attribute access on
None, `dict[key]` on a missing key) become `Except PyErr`; the event
dispatch of `ChatConsumer.receive` becomes a string match returning the
list of `group_send` calls it performs.
-/

/-- A Python/JSON value as it appears in payloads: `None`, an int, a
string, or a dict with string keys ordered by insertion. -/
inductive PyVal where
  | none
  | int (n : Int)
  | str (s : String)
  | dict (entries : List (String × PyVal))
deriving Repr

/-- Exceptions raised by the Python operations we model:
`AttributeError` (calling `.get` on a non-dict such as `None`),
`KeyError k` (`d[k]` with `k` missing), `TypeError` (`v[k]` on a
non-dict). -/
inductive PyErr where
  | attributeError
  | keyError (k : String)
  | typeError
deriving Repr, DecidableEq

/-- `str(v)` as used by Python f-strings (`f"chat_{v}"`): `None` prints as
"None", ints in decimal; dict formatting is never exercised by the code's
group names, which interpolate ids. -/
def pyStr : PyVal → String
  | .none => "None"
  | .int n => toString n
  | .str s => s
  | .dict _ => "dict"

/-- Association-list lookup on a Python dict's entries (first match). -/
def dLookup (es : List (String × PyVal)) (k : String) : Option PyVal :=
  match es with
  | [] => Option.none
  | (k2, v) :: rest => if k2 = k then Option.some v else dLookup rest k

/-- `d.get(k)` on a dict given as its entry list: missing keys yield
Python `None` (models `data.get("event")`, `data.get("payload")`). -/
def dGet (es : List (String × PyVal)) (k : String) : PyVal :=
  (dLookup es k).getD .none

/-- `payload.get(k)` where `payload` is an arbitrary value: raises
`AttributeError` unless the value is a dict (e.g. `None.get` raises). -/
def pyGet (v : PyVal) (k : String) : Except PyErr PyVal :=
  match v with
  | .dict es => .ok (dGet es k)
  | _ => .error .attributeError

/-- `v.get(k, default)`: like `pyGet` but with an explicit default for a
missing key. -/
def pyGetD (v : PyVal) (k : String) (dflt : PyVal) : Except PyErr PyVal :=
  match v with
  | .dict es => .ok ((dLookup es k).getD dflt)
  | _ => .error .attributeError

/-- In-place dict update `d[k] = v`: replaces the first binding of `k`
keeping its position, else appends (Python dict insertion order). -/
def setKey (es : List (String × PyVal)) (k : String) (v : PyVal) :
    List (String × PyVal) :=
  match es with
  | [] => [(k, v)]
  | (k2, w) :: rest =>
      if k2 = k then (k2, v) :: rest else (k2, w) :: setKey rest k v

/-- `target[k] = v` on an arbitrary value: `TypeError` unless a dict. -/
def pySetItem (v : PyVal) (k : String) (x : PyVal) : Except PyErr PyVal :=
  match v with
  | .dict es => .ok (.dict (setKey es k x))
  | _ => .error .typeError

/-- `v[k]` subscript access: `KeyError k` when the dict lacks `k`,
`TypeError` when `v` is not a dict (e.g. `None["x"]`). -/
def pyIndex (v : PyVal) (k : String) : Except PyErr PyVal :=
  match v with
  | .dict es =>
      match dLookup es k with
      | Option.some x => .ok x
      | Option.none => .error (.keyError k)
  | _ => .error .typeError

/-- The internal broadcast message handed to `channel_layer.group_send`:
one constructor per `"type"` value, carrying the payload-derived fields
exactly as `ChatConsumer.receive` builds them. -/
inductive InternalMsg where
  | chat_started (chat : PyVal)
  | new_message (message : PyVal)
  | profile_updated (profile : PyVal)
  | chat_deleted (chat_id : PyVal)
  | user_typing (user_id : PyVal)
  | user_online (user_id : PyVal)
  | user_offline (user_id : PyVal)
deriving Repr

/-- The name of a channel-layer group, e.g. "chat_42", "user_7",
"online_users". -/
abbrev GroupName := String

/-- A live consumer instance: the fields `ChatConsumer.connect` stores on
`self`, plus the unique channel name. `receive` takes it as `self` but
never reads it. -/
structure Connection where
  accepted : Bool
  user_id : PyVal
  chat_id : PyVal
  channel_name : String

/-- The event dispatch of `ChatConsumer.receive` for a string-valued
`event`, given the (already extracted) `payload` value: each recognized
branch performs exactly the `group_send` calls of consumers.py lines
39-92, in order; an unrecognized string falls through with no sends. -/
def receiveEvent (s : String) (payload : PyVal) :
    Except PyErr (List (GroupName × InternalMsg)) :=
  if s = "start_chat" then
    match pyGet payload "recipient_id" with
    | .error err => .error err
    | .ok rid =>
        match pyGet payload "chat" with
        | .error err => .error err
        | .ok chat => .ok [("user_" ++ pyStr rid, .chat_started chat)]
  else if s = "new_message" then
    match pyGetD payload "message" (.dict []) with
    | .error err => .error err
    | .ok md =>
        match pyGetD payload "message" (.dict []) with
        | .error err => .error err
        | .ok md2 =>
            match pyGetD md2 "content" (.str "No content") with
            | .error err => .error err
            | .ok c =>
                match pySetItem md "content" c with
                | .error err => .error err
                | .ok md3 =>
                    match pyGet payload "chat_id" with
                    | .error err => .error err
                    | .ok cid =>
                        .ok [("chat_" ++ pyStr cid, .new_message md3)]
  else if s = "update_profile" then
    match pyGet payload "profile" with
    | .error err => .error err
    | .ok profile => .ok [("online_users", .profile_updated profile)]
  else if s = "delete_chat" then
    match pyGet payload "chat_id" with
    | .error err => .error err
    | .ok cid => .ok [("chat_" ++ pyStr cid, .chat_deleted cid)]
  else if s = "typing_indicator" then
    match pyGet payload "recipient_id" with
    | .error err => .error err
    | .ok rid =>
        match pyGet payload "user_id" with
        | .error err => .error err
        | .ok uid => .ok [("user_" ++ pyStr rid, .user_typing uid)]
  else if s = "user_online" then
    match pyGet payload "user_id" with
    | .error err => .error err
    | .ok uid => .ok [("online_users", .user_online uid)]
  else if s = "user_offline" then
    match pyGet payload "user_id" with
    | .error err => .error err
    | .ok uid => .ok [("online_users", .user_offline uid)]
  else
    .ok []

/-- `ChatConsumer.receive(self, text_data)` after `json.loads`: extracts
`event` and `payload` with `.get` and dispatches.  A non-string `event`
value matches none of the `==` comparisons, so nothing is sent.  The
result is the ordered list of `group_send` calls (or the exception
raised).  `conn` is `self`; the body never reads it. -/
def receive (conn : Connection) (data : List (String × PyVal)) :
    Except PyErr (List (GroupName × InternalMsg)) :=
  match dGet data "event" with
  | .str s => receiveEvent s (dGet data "payload")
  | _ => .ok []

/-- The per-kind handler methods of `ChatConsumer` (`chat_started`,
`new_message`, `profile_updated`, `chat_deleted`, `user_typing`,
`user_online`, `user_offline`, consumers.py lines 94-136): translate an
internal broadcast message into the outbound wire envelope sent to one
recipient.  The `new_message` handler reads the message fields with
subscript access (`event["message"]["id"]`, ..., `["mediaType"]`,
`["timestamp"]`), which raises `KeyError` on a missing key; the other
handlers embed their single field directly. -/
def translateOutbound (m : InternalMsg) : Except PyErr PyVal :=
  match m with
  | .chat_started chat =>
      .ok (.dict [("event", .str "chat_started"), ("data", chat)])
  | .new_message msg =>
      match pyIndex msg "id" with
      | .error err => .error err
      | .ok mid =>
      match pyIndex msg "sender" with
      | .error err => .error err
      | .ok sender =>
      match pyIndex sender "id" with
      | .error err => .error err
      | .ok sid =>
      match pyIndex sender "username" with
      | .error err => .error err
      | .ok suser =>
      match pyIndex msg "content" with
      | .error err => .error err
      | .ok content =>
      match pyIndex msg "mediaType" with
      | .error err => .error err
      | .ok mediaType =>
      match pyIndex msg "timestamp" with
      | .error err => .error err
      | .ok timestamp =>
      .ok (.dict [("event", .str "new_message"),
        ("payload", .dict [("message", .dict
          [("id", mid),
           ("sender", .dict [("id", sid), ("username", suser)]),
           ("content", content),
           ("mediaType", mediaType),
           ("timestamp", timestamp)])])])
  | .profile_updated profile =>
      .ok (.dict [("event", .str "profile_updated"), ("data", profile)])
  | .chat_deleted cid =>
      .ok (.dict [("event", .str "chat_deleted"),
        ("data", .dict [("chat_id", cid)])])
  | .user_typing uid =>
      .ok (.dict [("event", .str "user_typing"),
        ("data", .dict [("user_id", uid)])])
  | .user_online uid =>
      .ok (.dict [("event", .str "user_online"),
        ("data", .dict [("user_id", uid)])])
  | .user_offline uid =>
      .ok (.dict [("event", .str "user_offline"),
        ("data", .dict [("user_id", uid)])])

/-- Extract `envelope["payload"]["message"]["content"]` from an outbound
wire envelope. -/
def envContent (e : PyVal) : Except PyErr PyVal :=
  match pyIndex e "payload" with
  | .error err => .error err
  | .ok p =>
      match pyIndex p "message" with
      | .error err => .error err
      | .ok msg => pyIndex msg "content"

/-- The channel layer's group table: each group name maps to the list of
member channel names (a set: `groupAdd` never duplicates). -/
def Registry := GroupName → List String

/-- `channel_layer.group_add(g, ch)`: adds the channel to the group,
creating it lazily; idempotent. -/
def groupAdd (r : Registry) (g : GroupName) (ch : String) : Registry :=
  fun k => if k = g then (if ch ∈ r k then r k else ch :: r k) else r k

/-- `channel_layer.group_discard(g, ch)`: removes the channel from the
group if present; idempotent. -/
def groupDiscard (r : Registry) (g : GroupName) (ch : String) : Registry :=
  fun k => if k = g then (r k).filter (fun c => c ≠ ch) else r k

/-- The registry with no groups. -/
def emptyRegistry : Registry := fun _ => []

/-- Deliver a broadcast to every current member of the target group:
each member's handler translates the internal message; a member whose
translation raises gets no frame (the exception is contained per
recipient).  Returns the (channel, envelope) frames actually sent. -/
def broadcastFrames (r : Registry) (g : GroupName) (m : InternalMsg) :
    List (String × PyVal) :=
  (r g).filterMap (fun ch =>
    match translateOutbound m with
    | .ok e => Option.some (ch, e)
    | .error _ => Option.none)

/-- Deliver every `group_send` of one `receive` call, in order. -/
def dispatchFrames (r : Registry) (bs : List (GroupName × InternalMsg)) :
    List (String × PyVal) :=
  match bs with
  | [] => []
  | (g, m) :: rest => broadcastFrames r g m ++ dispatchFrames r rest

/-- A Django user object as seen through `scope["user"]`:
`is_authenticated` is `True` for a real user and `False` for
`AnonymousUser`. -/
structure UserObj where
  is_authenticated : Bool
  id : Int

/-- `AnonymousUser()`: not authenticated. -/
def anonymousUser : UserObj := ⟨false, 0⟩

/-- Outcome of `jwt.decode` on the supplied token (middleware.py lines
21-36): a successfully decoded claim dict, or the expired/invalid
exceptions. -/
inductive JwtResult where
  | ok (claims : List (String × PyVal))
  | expired
  | invalid

/-- Python truthiness of the values we branch on (`if self.user_id and
self.chat_id`, `if token`, `if user_id`): `None`, `0`, `""` and `{}` are
falsy. -/
def pyTruthy : PyVal → Bool
  | .none => false
  | .int n => n ≠ 0
  | .str s => s ≠ ""
  | .dict es => !es.isEmpty

/-- `JWTAuthMiddleware.__call__`: resolve `scope["user"]` from the query
token.  `token` is the decoded-token outcome (`Option.none` when the
query string has no token), `db` models `get_user` (`aget` returning the
user, or `Option.none` on `User.DoesNotExist`).  Missing token, decode
failure, a non-truthy `user_id` claim, and a user lookup miss all yield
`AnonymousUser`. -/
def resolveUser (token : Option JwtResult) (db : PyVal → Option UserObj) :
    UserObj :=
  match token with
  | Option.none => anonymousUser
  | Option.some .expired => anonymousUser
  | Option.some .invalid => anonymousUser
  | Option.some (.ok claims) =>
      let uid := dGet claims "user_id"
      if pyTruthy uid then
        match db uid with
        | Option.some u => u
        | Option.none => anonymousUser
      else anonymousUser

/-- The connection scope the consumer reads: `scope["user"]` (set by the
middleware) and `scope["url_route"]["kwargs"]["chat_id"]`. -/
structure Scope where
  user : UserObj
  chat_id : PyVal

/-- `self.user_id` as computed on connect (consumers.py line 10):
the user's id when authenticated, else Python `None`. -/
def uidOf (scope : Scope) : PyVal :=
  if scope.user.is_authenticated then .int scope.user.id else .none

/-- The groups `ChatConsumer.connect` joins (lines 13-15): exactly
`chat_<chat_id>` when both `self.user_id` and `self.chat_id` are truthy,
else none. -/
def connectGroups (scope : Scope) : List GroupName :=
  if pyTruthy (uidOf scope) && pyTruthy scope.chat_id then
    ["chat_" ++ pyStr scope.chat_id]
  else []

/-- `ChatConsumer.connect`: accept the transport unconditionally, store
`self.user_id` and `self.chat_id`, and join the connect groups. -/
def connect (scope : Scope) (ch : String) (r : Registry) :
    Connection × Registry :=
  (⟨true, uidOf scope, scope.chat_id, ch⟩,
   (connectGroups scope).foldl (fun acc g => groupAdd acc g ch) r)

/-- `ChatConsumer.disconnect`: discard the channel from `chat_<chat_id>`
when `self.chat_id` is truthy (consumers.py lines 17-20). -/
def disconnect (c : Connection) (r : Registry) : Registry :=
  if pyTruthy c.chat_id then
    groupDiscard r ("chat_" ++ pyStr c.chat_id) c.channel_name
  else r

/-- The standard base64 alphabet as byte values: sextet `s` (0..63) maps
to "A"-"Z", "a"-"z", "0"-"9", "+", "/". -/
def sextetChar (s : Nat) : Nat :=
  if s < 26 then 65 + s
  else if s < 52 then 97 + (s - 26)
  else if s < 62 then 48 + (s - 52)
  else if s = 62 then 43
  else 47

/-- Inverse alphabet: byte value of a base64 character back to its
sextet; `Option.none` for a byte outside the alphabet (including the
padding byte 61, "="). -/
def charSextet (c : Nat) : Option Nat :=
  if 65 ≤ c ∧ c ≤ 90 then Option.some (c - 65)
  else if 97 ≤ c ∧ c ≤ 122 then Option.some (c - 97 + 26)
  else if 48 ≤ c ∧ c ≤ 57 then Option.some (c - 48 + 52)
  else if c = 43 then Option.some 62
  else if c = 47 then Option.some 63
  else Option.none

/-- `base64.b64encode` on a byte sequence (the UTF-8 bytes of the
content string): groups of three bytes become four alphabet bytes; a
final group of one or two bytes is padded with "=" (byte 61). -/
def b64encode : List Nat → List Nat
  | [] => []
  | [b1] =>
      [sextetChar (b1 / 4), sextetChar (b1 % 4 * 16), 61, 61]
  | [b1, b2] =>
      [sextetChar (b1 / 4), sextetChar (b1 % 4 * 16 + b2 / 16),
       sextetChar (b2 % 16 * 4), 61]
  | b1 :: b2 :: b3 :: rest =>
      sextetChar (b1 / 4) :: sextetChar (b1 % 4 * 16 + b2 / 16) ::
      sextetChar (b2 % 16 * 4 + b3 / 64) :: sextetChar (b3 % 64) ::
      b64encode rest

/-- `base64.b64decode` on well-formed input: consumes four bytes at a
time, honouring terminal "=" padding; yields `Option.none` on bytes
outside the alphabet or a malformed group (which `Message.decrypt_content`
catches). -/
def b64decodeOpt : List Nat → Option (List Nat)
  | [] => Option.some []
  | c1 :: c2 :: c3 :: c4 :: rest => do
      let s1 ← charSextet c1
      let s2 ← charSextet c2
      if c3 = 61 ∧ c4 = 61 ∧ rest = [] then
        Option.some [s1 * 4 + s2 / 16]
      else do
        let s3 ← charSextet c3
        if c4 = 61 ∧ rest = [] then
          Option.some [s1 * 4 + s2 / 16, s2 % 16 * 16 + s3 / 4]
        else do
          let s4 ← charSextet c4
          let bs ← b64decodeOpt rest
          Option.some ((s1 * 4 + s2 / 16) :: (s2 % 16 * 16 + s3 / 4) ::
            (s3 % 4 * 64 + s4) :: bs)
  | _ => Option.none

/-- `Message.encrypt_content` (models.py lines 57-60): base64-encode the
content's bytes. -/
def encrypt_content (content : List Nat) : List Nat :=
  b64encode content

/-- `Message.decrypt_content` (models.py lines 62-67): base64-decode the
stored content, returning the stored bytes unchanged if decoding
raises. -/
def decrypt_content (stored : List Nat) : List Nat :=
  (b64decodeOpt stored).getD stored

/-- `Mutation.send_message` (schema.py lines 268-294), restricted to the
content field it transforms: the stored `Message.content` is the base64
encoding of the input content, and the returned `MessageType.content` is
`decrypt_content` of the stored message. -/
def send_message (inputContent : List Nat) :
    (List Nat) × (List Nat) :=
  let stored := b64encode inputContent
  (stored, decrypt_content stored)

/-- Inbound payload P's new-message content as the §6 table reads it: the
message mapping's content when that key is present, else the sentinel
"No content". -/
def inboundContent (p : List (String × PyVal)) : PyVal :=
  match dLookup p "message" with
  | Option.some (.dict m) => (dLookup m "content").getD (.str "No content")
  | _ => .str "No content"

/-- Whether an embedded Python computation raised an exception. -/
def raisesErr {α : Type} (x : Except PyErr α) : Bool :=
  match x with
  | .error _ => true
  | .ok _ => false

/-- Whether an event value is one of the seven recognized kinds of
`ChatConsumer.receive`. -/
def isRecognizedEvent (v : PyVal) : Bool :=
  match v with
  | .str s =>
      s = "start_chat" || s = "new_message" || s = "update_profile" ||
      s = "delete_chat" || s = "typing_indicator" || s = "user_online" ||
      s = "user_offline"
  | _ => false

/-- A concrete authenticated consumer on chat 42 (channel "chA"). -/
def chatConnA : Connection := ⟨true, .int 7, .int 42, "chA"⟩

/-- The group table after channels "chA" and "chB" joined `chat_42`. -/
def chat42Registry : Registry :=
  groupAdd (groupAdd emptyRegistry "chat_42" "chA") "chat_42" "chB"

/-- The §8 scenario message omitting `mediaType` and `timestamp`. -/
def msg8 : PyVal :=
  .dict [("id", .int 1),
         ("sender", .dict [("id", .int 7), ("username", .str "ann")]),
         ("content", .str "hi")]

/-- The §8 scenario inbound envelope for `msg8`. -/
def env8 : List (String × PyVal) :=
  [("event", .str "new_message"),
   ("payload", .dict [("chat_id", .int 42), ("message", msg8)])]

/-- The §8 scenario message with `mediaType` and `timestamp` supplied
explicitly as `None`. -/
def msg8full : PyVal :=
  .dict [("id", .int 1),
         ("sender", .dict [("id", .int 7), ("username", .str "ann")]),
         ("content", .str "hi"),
         ("mediaType", .none),
         ("timestamp", .none)]

/-- The inbound envelope for `msg8full`. -/
def env8full : List (String × PyVal) :=
  [("event", .str "new_message"),
   ("payload", .dict [("chat_id", .int 42), ("message", msg8full)])]

/-- The outbound wire envelope the `new_message` handler produces from
`msg8full`. -/
def outEnv8 : PyVal :=
  .dict [("event", .str "new_message"),
         ("payload", .dict [("message", .dict
           [("id", .int 1),
            ("sender", .dict [("id", .int 7), ("username", .str "ann")]),
            ("content", .str "hi"),
            ("mediaType", .none),
            ("timestamp", .none)])])]

/-!
Helper lemmas, then one theorem per claim.
-/

theorem charSextet_sextetChar : ∀ s, s < 64 → charSextet (sextetChar s) = Option.some s := by
  decide

theorem sextetChar_ne_pad : ∀ s, s < 64 → sextetChar s ≠ 61 := by
  decide

theorem b64_roundtrip (l : List Nat) (h : ∀ b ∈ l, b < 256) :
    b64decodeOpt (b64encode l) = Option.some l := by
  induction l using b64encode.induct with
  | case1 => rfl
  | case2 b1 =>
      have hb1 : b1 < 256 := h b1 (by simp)
      simp only [b64encode, b64decodeOpt]
      rw [charSextet_sextetChar _ (by omega), charSextet_sextetChar _ (by omega)]
      simp only [Option.bind_eq_bind, Option.some_bind]
      rw [if_pos (by simp)]
      congr 1
      simp only [List.cons.injEq, and_true]
      omega
  | case3 b1 b2 =>
      have hb1 : b1 < 256 := h b1 (by simp)
      have hb2 : b2 < 256 := h b2 (by simp)
      simp only [b64encode, b64decodeOpt]
      rw [charSextet_sextetChar _ (by omega), charSextet_sextetChar _ (by omega),
        charSextet_sextetChar _ (by omega)]
      simp only [Option.bind_eq_bind, Option.some_bind]
      rw [if_neg (fun hc => sextetChar_ne_pad _ (by omega) hc.1)]
      rw [if_pos (by simp)]
      congr 1
      simp only [List.cons.injEq, and_true]
      omega
  | case4 b1 b2 b3 rest ih =>
      have hb1 : b1 < 256 := h b1 (by simp)
      have hb2 : b2 < 256 := h b2 (by simp)
      have hb3 : b3 < 256 := h b3 (by simp)
      have hrest : ∀ b ∈ rest, b < 256 := fun b hb => h b (by simp [hb])
      simp only [b64encode, b64decodeOpt]
      rw [charSextet_sextetChar _ (by omega), charSextet_sextetChar _ (by omega),
        charSextet_sextetChar _ (by omega), charSextet_sextetChar _ (by omega)]
      simp only [Option.bind_eq_bind, Option.some_bind]
      rw [if_neg (fun hc => sextetChar_ne_pad _ (by omega) hc.1)]
      rw [if_neg (fun hc => sextetChar_ne_pad _ (by omega) hc.1)]
      rw [ih hrest]
      simp only [Option.some_bind]
      congr 1
      simp only [List.cons.injEq, and_true]
      omega

theorem dLookup_setKey_self (es : List (String × PyVal)) (k : String) (v : PyVal) :
    dLookup (setKey es k v) k = Option.some v := by
  induction es with
  | nil => simp [setKey, dLookup]
  | cons hd tl ih =>
      obtain ⟨k2, w⟩ := hd
      by_cases hk : k2 = k
      · simp [setKey, hk, dLookup]
      · simp [setKey, hk, dLookup, ih]

theorem translate_new_message_content (v : PyVal) (e : PyVal)
    (h : translateOutbound (.new_message v) = .ok e) :
    envContent e = pyIndex v "content" := by
  simp only [translateOutbound] at h
  repeat' split at h
  all_goals
    first
    | exact Except.noConfusion h
    | (injection h with he
       subst he
       simp_all [envContent, pyIndex, dLookup])

/-- C10: `send_message` stores the base64 encoding of the input content,
and the message it returns (and every later read applying
`decrypt_content`) has content equal to the original input:
`decrypt_content` after `encrypt_content` is the identity on stored
messages. -/
theorem send_message_content_roundtrip (content : List Nat)
    (h : ∀ b ∈ content, b < 256) :
    (send_message content).1 = encrypt_content content ∧
    (send_message content).2 = content ∧
    decrypt_content (encrypt_content content) = content := by
  have hrt := b64_roundtrip content h
  refine ⟨rfl, ?_, ?_⟩ <;>
    simp [send_message, decrypt_content, encrypt_content, hrt]

/-- Witness for C10 at the content "hi" (UTF-8 bytes 104, 105). -/
theorem send_message_content_roundtrip_witness :
    (∀ b ∈ [104, 105], b < 256) ∧ (send_message [104, 105]).2 = [104, 105] :=
  ⟨by decide, (send_message_content_roundtrip [104, 105] (by decide)).2.1⟩

/-- C9 counterexample: a connect with resolved identity (user 7) and chat
context 42 joins exactly one group, `chat_42`, not two. -/
theorem connect_two_groups_cex :
    connectGroups ⟨⟨true, 7⟩, .int 42⟩ = ["chat_42"] ∧
    (connectGroups ⟨⟨true, 7⟩, .int 42⟩).length ≠ 2 := by
  constructor
  · rfl
  · intro hlen
    rw [show connectGroups ⟨⟨true, 7⟩, .int 42⟩ = ["chat_42"] from rfl] at hlen
    simp at hlen

/-- C9 amended: for every connect where the identity resolves (an
authenticated user with a truthy id) and a truthy chat context is
present, the lifecycle manager joins the connection to exactly one
group, `chat_<chat_id>`. -/
theorem connect_joins_exactly_chat_group (scope : Scope)
    (hauth : scope.user.is_authenticated = true)
    (hid : scope.user.id ≠ 0)
    (hchat : pyTruthy scope.chat_id = true) :
    connectGroups scope = ["chat_" ++ pyStr scope.chat_id] ∧
    (connectGroups scope).length = 1 := by
  have huid : pyTruthy (uidOf scope) = true := by
    simp [uidOf, hauth, pyTruthy, hid]
  refine ⟨?_, ?_⟩ <;> simp [connectGroups, huid, hchat]

/-- Witness for the amended C9 at user 7, chat 42. -/
theorem connect_joins_exactly_chat_group_witness :
    connectGroups ⟨⟨true, 7⟩, .int 42⟩ = ["chat_" ++ pyStr (.int 42)] ∧
    (connectGroups ⟨⟨true, 7⟩, .int 42⟩).length = 1 :=
  connect_joins_exactly_chat_group ⟨⟨true, 7⟩, .int 42⟩ rfl (by decide) rfl

/-- C8 counterexample: in the §8 scenario with `mediaType` and
`timestamp` omitted, the broadcast is routed to `chat_42`, but every
recipient's `new_message` handler raises `KeyError("mediaType")`, so no
member of the group — in particular not B — receives the claimed
outbound envelope: zero frames are delivered. -/
theorem new_message_missing_fields_cex :
    receive chatConnA env8 = .ok [("chat_42", .new_message msg8)] ∧
    translateOutbound (.new_message msg8) = .error (.keyError "mediaType") ∧
    dispatchFrames chat42Registry [("chat_42", .new_message msg8)] = [] :=
  ⟨rfl, rfl, rfl⟩

/-- C8 amended: when `mediaType` and `timestamp` are omitted from the
inbound message, each recipient's handler raises `KeyError("mediaType")`
and delivers no frame; the claimed envelope with `mediaType = None` and
`timestamp = None` is what every member of `chat_42` receives only when
the sender supplies those keys explicitly as `None`. -/
theorem new_message_missing_fields_amended :
    (receive chatConnA env8 = .ok [("chat_42", .new_message msg8)] ∧
     translateOutbound (.new_message msg8) = .error (.keyError "mediaType") ∧
     dispatchFrames chat42Registry [("chat_42", .new_message msg8)] = []) ∧
    (receive chatConnA env8full = .ok [("chat_42", .new_message msg8full)] ∧
     translateOutbound (.new_message msg8full) = .ok outEnv8 ∧
     dispatchFrames chat42Registry [("chat_42", .new_message msg8full)] =
       [("chB", outEnv8), ("chA", outEnv8)]) :=
  ⟨⟨rfl, rfl, rfl⟩, ⟨rfl, rfl, rfl⟩⟩

/-- C7: `user_online` is routed to the `online_users` group with the
payload-supplied `user_id`, and the result of `receive` is identical for
any two sender connections — in particular for two differing only in
their authenticated identity: routing never consults the sender's own
identity. -/
theorem user_online_ignores_sender_identity (c1 c2 : Connection)
    (data : List (String × PyVal)) (p : List (String × PyVal))
    (he : dGet data "event" = .str "user_online")
    (hp : dGet data "payload" = .dict p) :
    receive c1 data = .ok [("online_users", .user_online (dGet p "user_id"))] ∧
    receive c1 data = receive c2 data := by
  constructor
  · simp [receive, he, hp, receiveEvent, pyGet]
  · rfl

/-- Witness for C7: an authenticated and a never-authenticated sender
both broadcast user 5's presence to `online_users`. -/
theorem user_online_ignores_sender_identity_witness :
    receive chatConnA
        [("event", .str "user_online"), ("payload", .dict [("user_id", .int 5)])] =
      .ok [("online_users", .user_online (.int 5))] ∧
    receive chatConnA
        [("event", .str "user_online"), ("payload", .dict [("user_id", .int 5)])] =
      receive ⟨true, .none, .int 42, "chB"⟩
        [("event", .str "user_online"), ("payload", .dict [("user_id", .int 5)])] :=
  user_online_ignores_sender_identity chatConnA ⟨true, .none, .int 42, "chB"⟩
    [("event", .str "user_online"), ("payload", .dict [("user_id", .int 5)])]
    [("user_id", .int 5)] rfl rfl

/-- C4: an inbound envelope whose event value is not one of the seven
recognized kinds produces zero broadcasts, no exception, and — for any
group table — zero outbound frames to any connection. -/
theorem unrecognized_event_silent (conn : Connection)
    (data : List (String × PyVal))
    (h : isRecognizedEvent (dGet data "event") = false) :
    receive conn data = .ok [] ∧
    ∀ (r : Registry) (bs : List (GroupName × InternalMsg)),
      receive conn data = .ok bs → dispatchFrames r bs = [] := by
  have hok : receive conn data = .ok [] := by
    unfold receive
    rcases hcase : dGet data "event" with _ | n | s | es <;> rw [hcase] at h
    case str =>
      simp only [isRecognizedEvent, Bool.or_eq_false_iff,
        decide_eq_false_iff_not] at h
      obtain ⟨⟨⟨⟨⟨⟨h1, h2⟩, h3⟩, h4⟩, h5⟩, h6⟩, h7⟩ := h
      simp [receiveEvent, h1, h2, h3, h4, h5, h6, h7]
  refine ⟨hok, fun r bs hbs => ?_⟩
  rw [hok] at hbs
  injection hbs with he
  rw [← he]
  rfl

/-- Witness for C4 at the unknown event "ping". -/
theorem unrecognized_event_silent_witness :
    receive chatConnA [("event", .str "ping")] = .ok [] :=
  (unrecognized_event_silent chatConnA [("event", .str "ping")] rfl).1

/-- C5 counterexample: with a recognized event kind and an entirely
absent payload, `receive` raises `AttributeError` (`None.get`); likewise
when the payload's `message` field is present but not a mapping. -/
theorem receive_raises_cex :
    receive chatConnA [("event", .str "user_online")] =
      .error .attributeError ∧
    receive chatConnA [("event", .str "new_message"),
      ("payload", .dict [("message", .str "hi")])] =
      .error .attributeError :=
  ⟨rfl, rfl⟩

/-- C5 amended: for every inbound frame whose payload is present and a
mapping (and, for `new_message`, whose `message` field is absent or a
mapping), `receive` completes without raising: missing keys are treated
as `None`/absent. -/
theorem receive_total_on_mapping_payload (conn : Connection)
    (data : List (String × PyVal)) (p : List (String × PyVal))
    (hp : dGet data "payload" = .dict p)
    (hm : dLookup p "message" = Option.none ∨
      ∃ m, dLookup p "message" = Option.some (.dict m)) :
    raisesErr (receive conn data) = false := by
  unfold receive
  rcases hcase : dGet data "event" with _ | n | s | es <;> try rfl
  case str =>
    rw [hp]
    show raisesErr (receiveEvent s (.dict p)) = false
    rcases hm with hm | ⟨m, hm⟩ <;>
      by_cases h1 : s = "start_chat" <;>
      by_cases h2 : s = "new_message" <;>
      by_cases h3 : s = "update_profile" <;>
      by_cases h4 : s = "delete_chat" <;>
      by_cases h5 : s = "typing_indicator" <;>
      by_cases h6 : s = "user_online" <;>
      by_cases h7 : s = "user_offline" <;>
      simp [receiveEvent, h1, h2, h3, h4, h5, h6, h7, pyGet, pyGetD, hm,
        pySetItem, raisesErr]

/-- Witness for the amended C5: a `start_chat` frame whose payload is an
empty mapping is handled without raising. -/
theorem receive_total_on_mapping_payload_witness :
    raisesErr (receive chatConnA
      [("event", .str "start_chat"), ("payload", .dict [])]) = false :=
  receive_total_on_mapping_payload chatConnA
    [("event", .str "start_chat"), ("payload", .dict [])] [] rfl (Or.inl rfl)

/-- C1: for every inbound envelope with a mapping payload and a
recognized event kind, `receive` issues exactly one broadcast, to
exactly the target group of the §6 table, with the internal message
fields taken from the payload as that table lists them (group keys
`user:<id>`, `chat:<id>`, `online` are realized as the strings
`user_<id>`, `chat_<id>`, `online_users`). -/
theorem receive_routes_per_table (conn : Connection)
    (data : List (String × PyVal)) (p : List (String × PyVal))
    (hp : dGet data "payload" = .dict p) :
    (dGet data "event" = .str "start_chat" →
      receive conn data =
        .ok [("user_" ++ pyStr (dGet p "recipient_id"),
          .chat_started (dGet p "chat"))]) ∧
    (dGet data "event" = .str "new_message" →
      ∀ m, (dLookup p "message").getD (.dict []) = .dict m →
      receive conn data =
        .ok [("chat_" ++ pyStr (dGet p "chat_id"),
          .new_message (.dict (setKey m "content"
            ((dLookup m "content").getD (.str "No content")))))]) ∧
    (dGet data "event" = .str "update_profile" →
      receive conn data =
        .ok [("online_users", .profile_updated (dGet p "profile"))]) ∧
    (dGet data "event" = .str "delete_chat" →
      receive conn data =
        .ok [("chat_" ++ pyStr (dGet p "chat_id"),
          .chat_deleted (dGet p "chat_id"))]) ∧
    (dGet data "event" = .str "typing_indicator" →
      receive conn data =
        .ok [("user_" ++ pyStr (dGet p "recipient_id"),
          .user_typing (dGet p "user_id"))]) ∧
    (dGet data "event" = .str "user_online" →
      receive conn data =
        .ok [("online_users", .user_online (dGet p "user_id"))]) ∧
    (dGet data "event" = .str "user_offline" →
      receive conn data =
        .ok [("online_users", .user_offline (dGet p "user_id"))]) := by
  refine ⟨fun he => ?_, fun he m hm => ?_, fun he => ?_, fun he => ?_,
    fun he => ?_, fun he => ?_, fun he => ?_⟩
  · simp [receive, he, hp, receiveEvent, pyGet]
  · simp [receive, he, hp, receiveEvent, pyGetD, hm, pySetItem, pyGet]
  · simp [receive, he, hp, receiveEvent, pyGet]
  · simp [receive, he, hp, receiveEvent, pyGet]
  · simp [receive, he, hp, receiveEvent, pyGet]
  · simp [receive, he, hp, receiveEvent, pyGet]
  · simp [receive, he, hp, receiveEvent, pyGet]

/-- Witness for C1: a concrete `start_chat` envelope is routed to
`user_5` as `chat_started`. -/
theorem receive_routes_per_table_witness :
    receive chatConnA
        [("event", .str "start_chat"),
         ("payload", .dict [("recipient_id", .int 5), ("chat", .str "c")])] =
      .ok [("user_" ++ pyStr
          (dGet [("recipient_id", .int 5), ("chat", .str "c")] "recipient_id"),
        .chat_started
          (dGet [("recipient_id", .int 5), ("chat", .str "c")] "chat"))] :=
  (receive_routes_per_table chatConnA
    [("event", .str "start_chat"),
     ("payload", .dict [("recipient_id", .int 5), ("chat", .str "c")])]
    [("recipient_id", .int 5), ("chat", .str "c")] rfl).1 rfl

theorem not_mem_groupDiscard_self (r : Registry) (n g : GroupName)
    (ch : String) (h : g ≠ n → ch ∉ r g) :
    ch ∉ groupDiscard r n ch g := by
  unfold groupDiscard
  by_cases hg : g = n
  · simp [hg, List.mem_filter]
  · simp only [if_neg hg]
    exact h hg

/-- C2: a connection that connects (joining whatever groups `connect`
joins) and then disconnects is a member of no group afterwards: every
group whose member set contained its channel has it removed, and no
group retains a stale reference (the channel name is fresh — in no group
before connect). -/
theorem disconnect_removes_all_memberships (scope : Scope) (ch : String)
    (r : Registry) (hfresh : ∀ g2, ch ∉ r g2) (g : GroupName) :
    ch ∉ disconnect (connect scope ch r).1 ((connect scope ch r).2) g := by
  by_cases hchat : pyTruthy scope.chat_id = true
  · have hd : disconnect (connect scope ch r).1 ((connect scope ch r).2) =
        groupDiscard ((connect scope ch r).2)
          ("chat_" ++ pyStr scope.chat_id) ch := by
      simp [disconnect, connect, hchat]
    rw [hd]
    apply not_mem_groupDiscard_self
    intro hg
    by_cases hcond : (pyTruthy (uidOf scope) && pyTruthy scope.chat_id) = true
    · have hr : (connect scope ch r).2 g = r g := by
        simp [connect, connectGroups, hcond, groupAdd, hg]
      rw [hr]
      exact hfresh g
    · have hr : (connect scope ch r).2 g = r g := by
        simp [connect, connectGroups, hcond]
      rw [hr]
      exact hfresh g
  · have hchatf : pyTruthy scope.chat_id = false := by
      revert hchat
      cases pyTruthy scope.chat_id <;> simp
    have hcondf : (pyTruthy (uidOf scope) && pyTruthy scope.chat_id) = false := by
      simp [hchatf]
    have hr : disconnect (connect scope ch r).1 ((connect scope ch r).2) g = r g := by
      simp [disconnect, connect, connectGroups, hchatf, hcondf]
    rw [hr]
    exact hfresh g

/-- Witness for C2: channel "c1" (user 7, chat 42) is absent from
`chat_42` after connect then disconnect, starting from an empty group
table. -/
theorem disconnect_removes_all_memberships_witness :
    "c1" ∉ disconnect (connect ⟨⟨true, 7⟩, .int 42⟩ "c1" emptyRegistry).1
      ((connect ⟨⟨true, 7⟩, .int 42⟩ "c1" emptyRegistry).2) "chat_42" :=
  disconnect_removes_all_memberships ⟨⟨true, 7⟩, .int 42⟩ "c1" emptyRegistry
    (fun g2 => List.not_mem_nil "c1") "chat_42"

/-- C3: for every inbound `new_message` payload P, whenever `receive`
routes a broadcast and a recipient's handler produces an outbound
envelope, that envelope's `payload.message.content` equals P's message
content when that field is present, and the sentinel "No content" when
it is absent. -/
theorem new_message_content_preserved (conn : Connection)
    (p : List (String × PyVal)) (g : GroupName) (md : PyVal)
    (hrecv : receive conn
      [("event", .str "new_message"), ("payload", .dict p)] =
      .ok [(g, .new_message md)])
    (e : PyVal) (ht : translateOutbound (.new_message md) = .ok e) :
    envContent e = .ok (inboundContent p) := by
  have hrecv2 : receiveEvent "new_message" (.dict p) =
      .ok [(g, .new_message md)] := hrecv
  rcases hv : dLookup p "message" with _ | v2
  · simp [receiveEvent, pyGetD, hv, pySetItem, pyGet] at hrecv2
    rw [← hrecv2.2] at ht
    simp [translateOutbound, pyIndex, dLookup] at ht
  · rcases v2 with _ | n | s2 | m
    · simp [receiveEvent, pyGetD, hv, pySetItem, pyGet] at hrecv2
    · simp [receiveEvent, pyGetD, hv, pySetItem, pyGet] at hrecv2
    · simp [receiveEvent, pyGetD, hv, pySetItem, pyGet] at hrecv2
    · simp [receiveEvent, pyGetD, hv, pySetItem, pyGet] at hrecv2
      have hc := translate_new_message_content md e ht
      rw [hc, ← hrecv2.2]
      simp [pyIndex, dLookup_setKey_self, inboundContent, hv]

/-- Witness for C3: the §8 full message round-trips its content "hi". -/
theorem new_message_content_preserved_witness :
    envContent outEnv8 =
      .ok (inboundContent [("chat_id", .int 42), ("message", msg8full)]) :=
  new_message_content_preserved chatConnA
    [("chat_id", .int 42), ("message", msg8full)] "chat_42" msg8full rfl
    outEnv8 rfl

/-- C6: for every connect attempt whose credential is missing, expired,
or invalid, the middleware resolves an anonymous user; the transport is
still accepted, the connection's `user_id` is `None`, and the connection
is joined to no group (the group table is unchanged). -/
theorem auth_failure_anonymous (token : Option JwtResult)
    (db : PyVal → Option UserObj)
    (hbad : token = Option.none ∨ token = Option.some .expired ∨
      token = Option.some .invalid)
    (cid : PyVal) (ch : String) (r : Registry) :
    (resolveUser token db).is_authenticated = false ∧
    (connect ⟨resolveUser token db, cid⟩ ch r).1.accepted = true ∧
    (connect ⟨resolveUser token db, cid⟩ ch r).1.user_id = .none ∧
    connectGroups ⟨resolveUser token db, cid⟩ = [] ∧
    (connect ⟨resolveUser token db, cid⟩ ch r).2 = r := by
  have hanon : resolveUser token db = anonymousUser := by
    rcases hbad with h | h | h <;> subst h <;> rfl
  rw [hanon]
  exact ⟨rfl, rfl, rfl, rfl, rfl⟩

/-- Witness for C6: a connect with no token on chat 42 stays accepted,
anonymous, and group-less. -/
theorem auth_failure_anonymous_witness :
    (resolveUser Option.none (fun _ => Option.none)).is_authenticated = false ∧
    (connect ⟨resolveUser Option.none (fun _ => Option.none), .int 42⟩ "c1"
      emptyRegistry).1.accepted = true ∧
    (connect ⟨resolveUser Option.none (fun _ => Option.none), .int 42⟩ "c1"
      emptyRegistry).1.user_id = .none ∧
    connectGroups ⟨resolveUser Option.none (fun _ => Option.none), .int 42⟩ = [] ∧
    (connect ⟨resolveUser Option.none (fun _ => Option.none), .int 42⟩ "c1"
      emptyRegistry).2 = emptyRegistry :=
  auth_failure_anonymous Option.none (fun _ => Option.none) (Or.inl rfl)
    (.int 42) "c1" emptyRegistry
